import Mathlib

/-!
# Verification of the hawtcher monitoring core

Shallow embedding, in Lean 4, of the decision logic of the hawtcher
repository (a monitor that watches an AI coding agent's activity log,
asks a classifier whether the agent is on task, and injects corrective
messages).  Python floats are modelled as rationals (`ℚ`), Python's
`None` as `Option`, and Python string truthiness (`if not s`) as an
explicit emptiness test.  External library calls (the LLM client's HTTP
request, `json.loads`) are boundaries: their outcome is passed in as an
`Option`-valued argument.
-/

namespace Hawtcher

/-! ## Data model (src/monitor/models.py) -/

/-- `ClaudeHistoryEvent`: one parsed entry of `history.jsonl`.
The Python model converts the epoch-millis timestamp to a datetime; here
we keep the raw integer, which preserves ordering.  The optional
`pasted_contents` blob is never consulted by the monitoring logic and is
omitted. -/
structure ClaudeHistoryEvent where
  display : String
  timestamp : Int
  project : String
  sessionId : String
deriving Repr, DecidableEq

/-- `TaskContext`: the snapshot handed to the classifier. -/
structure TaskContext where
  user_instruction : String
  recent_events : List ClaudeHistoryEvent
  current_todos : List String
  completed_todos : List String
deriving Repr, DecidableEq

/-- `AnalysisResult`: the classifier's judgment.  The pydantic model
constrains `confidence` with `Field(ge=0.0, le=1.0)`; that constraint is
a *validation* (construction fails outside the range) and is modelled
separately in `validateAnalysisResult`. -/
structure AnalysisResult where
  is_on_task : Bool
  confidence : ℚ
  reasoning : String
  detected_issues : List String
  recommended_action : Option String
deriving Repr, DecidableEq

/-- `InterventionDecision` (creation timestamp omitted: wall-clock). -/
structure InterventionDecision where
  should_intervene : Bool
  severity : String
  intervention_message : String
  analysis : AnalysisResult
deriving Repr, DecidableEq

/-! ## Classifier response handling (src/monitor/llm_client.py)

`DevstralClient.analyze_task_adherence` performs an HTTP chat call and
parses the reply; `_parse_analysis_response` strips code fences, runs
`json.loads` and constructs `AnalysisResult`, falling back to a safe
default on any exception.  The network call and the JSON decode are
external boundaries; their combined outcome is the argument:
`none` = the HTTP call raised; `some none` = a reply arrived but code
fence stripping / `json.loads` / field extraction failed;
`some (some d)` = decoding produced the raw field values `d`. -/

/-- Raw decoded fields of a classifier reply, before pydantic validation. -/
structure RawAnalysis where
  is_on_task : Bool
  confidence : ℚ
  reasoning : String
  detected_issues : List String
  recommended_action : Option String
deriving Repr, DecidableEq

/-- Pydantic construction `AnalysisResult(**data)`: the
`Field(ge=0.0, le=1.0)` bound on `confidence` rejects (raises a
`ValidationError`, caught by the surrounding `except`) any out-of-range
value; it does not clamp. -/
def validateAnalysisResult (d : RawAnalysis) : Option AnalysisResult :=
  if 0 ≤ d.confidence ∧ d.confidence ≤ 1 then
    some ⟨d.is_on_task, d.confidence, d.reasoning, d.detected_issues,
          d.recommended_action⟩
  else none

/-- The safe default judgment returned on any failure path
(`is_on_task=True, confidence=0.0`); `reasoning` carries the error text. -/
def failOpenResult (reasoning : String) : AnalysisResult :=
  { is_on_task := true
    confidence := 0
    reasoning := reasoning
    detected_issues := []
    recommended_action := none }

/-- `DevstralClient._parse_analysis_response` (lines 121-145): any
decode or validation failure yields the fail-open default. -/
def parse_analysis_response (decoded : Option RawAnalysis) : AnalysisResult :=
  match decoded with
  | none => failOpenResult "Failed to parse response"
  | some d =>
    match validateAnalysisResult d with
    | some r => r
    | none => failOpenResult "Failed to parse response"

/-- `DevstralClient.analyze_task_adherence` (lines 21-60): a raised
communication error (`response = none`) yields the fail-open default;
otherwise the reply is parsed. -/
def analyze_task_adherence (response : Option (Option RawAnalysis)) :
    AnalysisResult :=
  match response with
  | none => failOpenResult "Analysis failed"
  | some decoded => parse_analysis_response decoded

/-! ## Severity and intervention decision (src/monitor/analyzer.py) -/

/-- `TaskAnalyzer._determine_severity` (lines 147-156). -/
def determine_severity (analysis : AnalysisResult) : String :=
  if analysis.confidence ≥ 9/10 then "critical"
  else if analysis.confidence ≥ 8/10 then "high"
  else if analysis.confidence ≥ 7/10 then "medium"
  else "low"

/-- `TaskAnalyzer._build_intervention_message` (lines 158-182).
Python truthiness: an empty issue list and an empty or absent
recommended action skip their sections. -/
def build_intervention_message (analysis : AnalysisResult) : String :=
  let parts : List String :=
    ["CLAUDE CODE APPEARS TO BE OFF-TASK", "",
     "Reasoning: " ++ analysis.reasoning, ""]
  let parts :=
    if analysis.detected_issues = [] then parts
    else parts ++ ["Detected Issues:"]
         ++ analysis.detected_issues.map (fun issue => "  - " ++ issue)
         ++ [""]
  let parts :=
    match analysis.recommended_action with
    | none => parts
    | some act =>
      if act = "" then parts
      else parts ++ ["Recommended Action:", "  " ++ act, ""]
  String.intercalate "\n"
    (parts ++ ["Consider redirecting Claude Code back to the original task."])

/-- The intervention condition of `TaskAnalyzer._trigger_analysis`
(lines 130-133):
`(not analysis.is_on_task and analysis.confidence >= threshold) or force`. -/
def shouldIntervene (analysis : AnalysisResult) (threshold : ℚ)
    (force : Bool) : Bool :=
  (!analysis.is_on_task && decide (analysis.confidence ≥ threshold)) || force

/-- The decision-production step of `TaskAnalyzer._trigger_analysis`
(lines 129-145): a decision is built exactly when the intervention
condition holds (the spec's `evaluate(judgment, forced)`). -/
def evaluateJudgment (analysis : AnalysisResult) (threshold : ℚ)
    (force : Bool) : Option InterventionDecision :=
  if shouldIntervene analysis threshold force then
    some { should_intervene := true
           severity := determine_severity analysis
           intervention_message := build_intervention_message analysis
           analysis := analysis }
  else none

/-! ## Question detector (src/monitor/question_detector.py)

The detector compiles two regex lists with `IGNORECASE | MULTILINE` and
uses `pattern.search(text)`.  Every pattern is a literal alternation,
optionally `^`-anchored (with MULTILINE, i.e. anchored at the start of
some line), with occasional `\b` word boundaries, a trailing `\?$`
(a question mark at the end of some line), or `\b<word>\b.*\?` (the
word, then a question mark later on the same line, since `.` does not
cross a newline).  Texts are modelled as `List Char`; matching is
case-normalised by lowering the text, with the literals written in
lowercase. -/

def lowerChars (l : List Char) : List Char := l.map Char.toLower

/-- Python regex word character `\w` (ASCII fragment; the phrases the
patterns can match are ASCII). -/
def isWordChar (c : Char) : Bool := c.isAlphanum || c = '_'

/-- Python `str.split(sep)` for a one-character separator: keeps empty
parts, `[[]]` on the empty string. -/
def splitOnChar (sep : Char) : List Char → List (List Char)
  | [] => [[]]
  | c :: cs =>
    match splitOnChar sep cs with
    | [] => [[]]
    | l :: ls => if c = sep then [] :: l :: ls else (c :: l) :: ls

/-- Python `str.strip()`: whitespace removed from both ends. -/
def trimChars (l : List Char) : List Char :=
  ((l.dropWhile Char.isWhitespace).reverse.dropWhile Char.isWhitespace).reverse

/-- A word boundary `\b` in front of a word-character pattern, given the
character preceding the match position (`none` at the start of text). -/
def boundaryBefore : Option Char → Bool
  | none => true
  | some p => !isWordChar p

/-- A word boundary `\b` after a pattern ending in a word character:
the following character is absent or not a word character. -/
def boundaryAfter : List Char → Bool
  | [] => true
  | c :: _ => !isWordChar c

/-- `re.search` of a MULTILINE `^`-anchored literal: some line starts
with the literal (case-insensitively). -/
def anchoredLiteral (pat : String) (lines : List (List Char)) : Bool :=
  lines.any (fun l => pat.toList.isPrefixOf (lowerChars l))

/-- As `anchoredLiteral`, with a `\b` closing the pattern. -/
def anchoredLiteralWord (pat : String) (lines : List (List Char)) : Bool :=
  lines.any (fun l =>
    pat.toList.isPrefixOf (lowerChars l)
      && boundaryAfter ((lowerChars l).drop pat.toList.length))

/-- `re.search` of `\b` followed by a literal starting with a word
character: scan the lowered text for an occurrence of the literal
preceded by a word boundary. -/
def searchWordLiteral (pat : List Char) : Option Char → List Char → Bool
  | _, [] => false
  | prev, c :: cs =>
    (boundaryBefore prev && pat.isPrefixOf (c :: cs))
      || searchWordLiteral pat (some c) cs

/-- A `?` occurring at or after the current position but before the next
newline (the regex `.` does not match `\n`). -/
def questionMarkBeforeNewline : List Char → Bool
  | [] => false
  | c :: cs =>
    if c = '?' then true
    else if c = '\n' then false
    else questionMarkBeforeNewline cs

/-- `re.search` of `\b<word>\b.*\?`. -/
def searchWordThenQ (w : List Char) : Option Char → List Char → Bool
  | _, [] => false
  | prev, c :: cs =>
    (boundaryBefore prev && w.isPrefixOf (c :: cs)
      && boundaryAfter ((c :: cs).drop w.length)
      && questionMarkBeforeNewline ((c :: cs).drop w.length))
      || searchWordThenQ w (some c) cs

/-- The fourteen compiled `QUESTION_PATTERNS`, in source order:
`\?$`; `^Should I\b`; `^Which\b`; `^Do you want`; `^Would you like`;
`^Can I\b`; `^May I\b`; `^Could you\b`; `^Would you\b`;
`^Please (?:confirm|choose|select|specify|clarify)`; `\bconfirm\?`;
`\bchoose\b.*\?`; `\bprefer\b.*\?`; `\bor\b.*\?`. -/
def questionPatternsMatch (tl : List Char) (lines : List (List Char)) :
    Bool :=
  (lines.any fun l => l.getLast? == some '?')
  || anchoredLiteralWord "should i" lines
  || anchoredLiteralWord "which" lines
  || anchoredLiteral "do you want" lines
  || anchoredLiteral "would you like" lines
  || anchoredLiteralWord "can i" lines
  || anchoredLiteralWord "may i" lines
  || anchoredLiteralWord "could you" lines
  || anchoredLiteralWord "would you" lines
  || (["please confirm", "please choose", "please select",
       "please specify", "please clarify"].any
        fun p => anchoredLiteral p lines)
  || searchWordLiteral "confirm?".toList none tl
  || searchWordThenQ "choose".toList none tl
  || searchWordThenQ "prefer".toList none tl
  || searchWordThenQ "or".toList none tl

/-- The four compiled `RHETORICAL_PATTERNS`, expanded alternations:
`^What (?:is|are|was|were|does|did)`;
`^How (?:does|did|can|should) (?:this|that|it)`;
`^Why (?:is|are|does|did)`; `^Let me (?:check|see|verify|analyze)`. -/
def rhetoricalPrefixes : List String :=
  ["what is", "what are", "what was", "what were", "what does", "what did",
   "how does this", "how does that", "how does it",
   "how did this", "how did that", "how did it",
   "how can this", "how can that", "how can it",
   "how should this", "how should that", "how should it",
   "why is", "why are", "why does", "why did",
   "let me check", "let me see", "let me verify", "let me analyze"]

def rhetoricalMatch (lines : List (List Char)) : Bool :=
  rhetoricalPrefixes.any (fun p => anchoredLiteral p lines)

/-- `QuestionDetector.is_question` (lines 44-67).  The guard
`if not text or len(text.strip()) == 0` is equivalent to the stripped
text being empty.  Rhetorical exclusions are checked first. -/
def is_question (text : List Char) : Bool :=
  if trimChars text = [] then false
  else
    let lines := splitOnChar '\n' text
    if rhetoricalMatch lines then false
    else questionPatternsMatch (lowerChars text) lines

/-- `QuestionDetector.extract_question` (lines 69-98). -/
def extract_question (text : List Char) : Option (List Char) :=
  if !is_question text then none
  else
    let lines := splitOnChar '\n' text
    let questions := lines.filterMap (fun line =>
      let l := trimChars line
      if is_question l then some l else none)
    match questions with
    | [] => if text.contains '?' then some (trimChars text) else none
    | q :: _ => some q

/-- Modelled from the spec's words (for comparison with
`extract_question`): split into lines, return the first line
independently classified as a question; if none, fall back to the whole
(stripped) text whenever it contains a `?` character, else none.  This
reading omits the gate `is_question(text)` that the code applies before
everything else. -/
def extractFirstQuestionLineSpec (text : List Char) : Option (List Char) :=
  match (splitOnChar '\n' text).filterMap (fun line =>
      let l := trimChars line
      if is_question l then some l else none) with
  | [] => if text.contains '?' then some (trimChars text) else none
  | q :: _ => some q

/-! ## Context buffer and trigger policy (src/monitor/analyzer.py) -/

/-- `collections.deque(maxlen := W)` under right-appends only: append
one element; when the capacity `W` is exceeded the oldest element is
evicted from the left (for `W = 0` the deque stays empty). -/
def bufAppend {α : Type} (W : ℕ) (buf : List α) (x : α) : List α :=
  let b := buf ++ [x]
  b.drop (b.length - W)

/-- `TaskAnalyzer._is_suspicious_activity`'s pattern list
(lines 91-104); `\x27` is the apostrophe. -/
def suspicious_patterns : List String :=
  ["i\x27ll monitor", "i will monitor", "i\x27ll check", "i will check",
   "later on", "in the future", "i\x27ll watch", "i will watch",
   "i\x27ll track", "i will track", "continuously", "ongoing"]

/-- Python's substring operator `pat in s` on character lists. -/
def listContainsSub (pat : List Char) : List Char → Bool
  | [] => pat.isEmpty
  | c :: cs => pat.isPrefixOf (c :: cs) || listContainsSub pat cs

/-- `TaskAnalyzer._is_suspicious_activity` (lines 81-107):
case-insensitive substring match of any pattern. -/
def is_suspicious_activity (activity : String) : Bool :=
  suspicious_patterns.any
    (fun pattern => listContainsSub pattern.toList (lowerChars activity.toList))

/-- The mutable state of `TaskAnalyzer` (llm client, threshold and
callback excluded: they do not change). -/
structure TaskAnalyzerState where
  user_instruction : Option String
  current_todos : List String
  completed_todos : List String
  recent_events : List ClaudeHistoryEvent
  event_count : ℕ
deriving Repr, DecidableEq

/-- `self.check_frequency = 3  # Check every N events`. -/
def check_frequency : ℕ := 3

/-- The state set up by `TaskAnalyzer.__init__`. -/
def initAnalyzerState : TaskAnalyzerState :=
  { user_instruction := none
    current_todos := []
    completed_todos := []
    recent_events := []
    event_count := 0 }

/-- `TaskAnalyzer.set_user_instruction` (lines 43-47). -/
def set_user_instruction (s : TaskAnalyzerState) (instruction : String) :
    TaskAnalyzerState :=
  { s with user_instruction := some instruction
           current_todos := []
           completed_todos := [] }

/-- Python truthiness of the optional instruction string
(`if not self.user_instruction`): `None` and `""` are falsy. -/
def truthyInstruction : Option String → Bool
  | none => false
  | some s => s != ""

/-- An invocation of the classifier: the snapshot and activity passed to
`analyze_task_adherence`, and the `force` flag that bypasses the
confidence gate. -/
structure Trigger where
  context : TaskContext
  current_activity : String
  force : Bool
deriving Repr, DecidableEq

/-- `TaskAnalyzer._trigger_analysis` (lines 109-127) up to the
classifier call: `none` when the guard `if not self.user_instruction`
returns early, otherwise the context snapshot actually handed to the
classifier.  The judgment-to-decision step that follows the call is
`evaluateJudgment`. -/
def trigger_analysis (s : TaskAnalyzerState) (current_activity : String)
    (force : Bool) : Option Trigger :=
  match s.user_instruction with
  | none => none
  | some instr =>
    if instr = "" then none
    else
      some { context := { user_instruction := instr
                          recent_events := s.recent_events
                          current_todos := s.current_todos
                          completed_todos := s.completed_todos }
             current_activity := current_activity
             force := force }

/-- `TaskAnalyzer.process_event` (lines 60-79): append to the window,
bump the counter, adopt the display text as instruction when none (or an
empty one) is set, then fire the trigger policy — immediately (forced)
on suspicious phrasing, else on the cadence `count % 3 == 0`. -/
def process_event (W : ℕ) (s : TaskAnalyzerState)
    (event : ClaudeHistoryEvent) : TaskAnalyzerState × Option Trigger :=
  let recent := bufAppend W s.recent_events event
  let count := s.event_count + 1
  let instr :=
    if truthyInstruction s.user_instruction then s.user_instruction
    else some event.display
  let s' : TaskAnalyzerState :=
    { s with user_instruction := instr
             recent_events := recent
             event_count := count }
  let trig :=
    if is_suspicious_activity event.display then
      trigger_analysis s' event.display true
    else if count % check_frequency = 0 then
      trigger_analysis s' event.display false
    else none
  (s', trig)

/-- The trigger emitted at each position of an event sequence. -/
def runEvents (W : ℕ) (s : TaskAnalyzerState) :
    List ClaudeHistoryEvent → List (Option Trigger)
  | [] => []
  | e :: es =>
    let r := process_event W s e
    r.2 :: runEvents W r.1 es

/-- Folding a sequence of appends into the bounded window. -/
def appendAll {α : Type} (W : ℕ) (buf : List α) (xs : List α) : List α :=
  xs.foldl (bufAppend W) buf

/-! ## History watcher (src/monitor/watcher.py)

The file is modelled as its character content (`List Char`), the
persisted read offset as a character index (the Python code uses byte
offsets; for the emission discipline only the positions relative to
appends matter).  `json.loads` plus the pydantic event construction is
the per-line parser boundary, passed in as `parse`. -/

/-- One iteration of the parsing loop of `_read_new_entries`
(lines 52-63): strip the line, skip it when empty, otherwise parse;
a parse failure drops the line (`continue`). -/
def processLine {E : Type} (parse : List Char → Option E)
    (line : List Char) : Option E :=
  let l := trimChars line
  if l = [] then none else parse l

/-- `HistoryWatcher._read_new_entries` (lines 42-63): seek to the stored
offset, read to end-of-file, advance the offset to the new end (before
any parsing), then emit each successfully parsed non-empty line in
order. -/
def read_new_entries {E : Type} (parse : List Char → Option E)
    (file : List Char) (pos : ℕ) : List E × ℕ :=
  ((splitOnChar '\n' (file.drop pos)).filterMap (processLine parse),
   file.length)

/-- `HistoryWatcher._initialize_position` (lines 28-33): the initial
offset is the current end-of-file. -/
def initialize_position (file : List Char) : ℕ := file.length

/-- A run of the watcher: starting from file content `file` and offset
`pos`, each step appends one chunk to the file and performs one
`_read_new_entries`; the emitted events of all reads, concatenated. -/
def runReads {E : Type} (parse : List Char → Option E) :
    List Char → ℕ → List (List Char) → List E
  | _, _, [] => []
  | file, pos, a :: as =>
    let file' := file ++ a
    let r := read_new_entries parse file' pos
    r.1 ++ runReads parse file' r.2 as

/-! ## Question escalation
(src/hawtcher.py, src/monitor/telegram_relay.py) -/

/-- `AnswerAttempt` (src/monitor/question_answerer.py lines 13-19). -/
structure AnswerAttempt where
  answer : String
  confidence : ℚ
  reasoning : String
  should_ask_user : Bool
deriving Repr, DecidableEq

/-- `TelegramRelay.ask_question`'s result (lines 133-188): `none`
immediately when no chat id is configured, otherwise the reply obtained
from the handoff queue — `none` when the wait timed out (`queue.Empty`
after `response_timeout` seconds), `some a` when the human answered `a`
in time.  The wait itself is the boundary: its outcome is `reply`. -/
def ask_question_result (chat_id : Option String)
    (reply : Option String) : Option String :=
  match chat_id with
  | none => none
  | some _ => reply

/-- `HawtcherApp._handle_question` (src/hawtcher.py lines 110-180),
restricted to the computation of the final answer string delivered to
the agent.  `relay` is `none` when no Telegram relay is configured, and
`some r` when one is, `r` being what `ask_question` returned.  Python
truthiness: an empty reply (`if user_answer:`) and an empty automatic
answer (`answer_attempt.answer or ...`) are falsy. -/
def handle_question_answer (attempt : AnswerAttempt)
    (relay : Option (Option String)) : String :=
  if attempt.should_ask_user then
    match relay with
    | some user_answer =>
      match user_answer with
      | some ua =>
        if ua != "" then ua
        else if attempt.answer != "" then attempt.answer
        else "Please clarify your question."
      | none =>
        if attempt.answer != "" then attempt.answer
        else "Please clarify your question."
    | none =>
      if attempt.answer != "" then attempt.answer
      else "Please clarify your question."
  else attempt.answer

/-! ## Helper lemmas -/

theorem evaluateJudgment_isSome (analysis : AnalysisResult)
    (threshold : ℚ) (force : Bool) :
    (evaluateJudgment analysis threshold force).isSome =
      shouldIntervene analysis threshold force := by
  unfold evaluateJudgment
  split <;> simp_all

theorem evaluateJudgment_eq_none (analysis : AnalysisResult)
    (threshold : ℚ) (force : Bool) :
    evaluateJudgment analysis threshold force = none ↔
      shouldIntervene analysis threshold force = false := by
  unfold evaluateJudgment
  split <;> simp_all

theorem shouldIntervene_iff (analysis : AnalysisResult) (threshold : ℚ)
    (force : Bool) :
    shouldIntervene analysis threshold force = true ↔
      ((analysis.is_on_task = false ∧ threshold ≤ analysis.confidence)
        ∨ force = true) := by
  unfold shouldIntervene
  cases h : analysis.is_on_task <;> cases force <;>
    simp [decide_eq_true_iff, ge_iff_le]

theorem bufAppend_length {α : Type} (W : ℕ) (buf : List α) (x : α) :
    (bufAppend W buf x).length = min (buf.length + 1) W := by
  simp [bufAppend]
  omega

/-- Appending to the kept-last-`W` view of a list keeps the last `W` of
the extended list. -/
theorem drop_lastN_append {α : Type} (W : ℕ) (l t : List α) :
    (l.drop (l.length - W) ++ t).drop
        ((l.drop (l.length - W)).length + t.length - W)
      = (l ++ t).drop (l.length + t.length - W) := by
  rcases le_or_lt l.length W with h | h
  · have h0 : l.length - W = 0 := by omega
    rw [h0, List.drop_zero]
  · have hd : (l.drop (l.length - W)).length = W := by
      rw [List.length_drop]
      omega
    rw [hd, List.drop_append_eq_append_drop, List.drop_append_eq_append_drop,
      List.drop_drop, hd]
    congr 2 <;> omega

theorem appendAll_lastN {α : Type} (W : ℕ) (xs : List α) :
    ∀ buf : List α, buf.length ≤ W →
      appendAll W buf xs = (buf ++ xs).drop (buf.length + xs.length - W) := by
  induction xs with
  | nil =>
    intro buf h
    simp only [appendAll, List.foldl_nil, List.append_nil,
      List.length_nil, Nat.add_zero]
    rw [Nat.sub_eq_zero_of_le h, List.drop_zero]
  | cons x xs ih =>
    intro buf h
    have hlen : (bufAppend W buf x).length ≤ W := by
      rw [bufAppend_length]
      omega
    have step : appendAll W buf (x :: xs)
        = appendAll W (bufAppend W buf x) xs := rfl
    have hb : bufAppend W buf x
        = (buf ++ [x]).drop ((buf ++ [x]).length - W) := rfl
    rw [step, ih _ hlen, hb]
    have h2 : buf ++ x :: xs = (buf ++ [x]) ++ xs := by simp
    have h3 : buf.length + (x :: xs).length - W
        = (buf ++ [x]).length + xs.length - W := by
      simp
      omega
    rw [h2, h3, drop_lastN_append]

/-! ## Claim theorems -/

/-- **C1**: the coordinator produces an intervention decision iff
(the judgment is off-task and its confidence is at least the configured
threshold) or the forced flag is set; confidence exactly at the
threshold with `on_task = false` intervenes, confidence below the
threshold unforced does not, and an on-task judgment never yields a
decision unless forced. -/
theorem C1_evaluate_iff (analysis : AnalysisResult) (threshold : ℚ)
    (force : Bool) :
    ((evaluateJudgment analysis threshold force).isSome = true ↔
      ((analysis.is_on_task = false ∧ threshold ≤ analysis.confidence)
        ∨ force = true))
  ∧ (analysis.is_on_task = false → analysis.confidence = threshold →
      (evaluateJudgment analysis threshold force).isSome = true)
  ∧ (analysis.is_on_task = false → analysis.confidence < threshold →
      force = false → evaluateJudgment analysis threshold force = none)
  ∧ (analysis.is_on_task = true → force = false →
      evaluateJudgment analysis threshold force = none) := by
  refine ⟨?_, ?_, ?_, ?_⟩
  · rw [evaluateJudgment_isSome]
    exact shouldIntervene_iff analysis threshold force
  · intro h1 h2
    rw [evaluateJudgment_isSome, shouldIntervene_iff]
    exact Or.inl ⟨h1, le_of_eq h2.symm⟩
  · intro h1 h2 h3
    rw [evaluateJudgment_eq_none]
    rw [← Bool.not_eq_true, shouldIntervene_iff]
    rintro (⟨-, hle⟩ | hf)
    · exact absurd h2 (not_lt.mpr hle)
    · rw [h3] at hf; exact Bool.noConfusion hf
  · intro h1 h2
    rw [evaluateJudgment_eq_none]
    rw [← Bool.not_eq_true, shouldIntervene_iff]
    rintro (⟨ht, -⟩ | hf)
    · rw [h1] at ht; exact Bool.noConfusion ht
    · rw [h2] at hf; exact Bool.noConfusion hf

/-- Witness for C1 at the threshold boundary. -/
theorem C1_evaluate_iff_witness :
    (evaluateJudgment ⟨false, 7/10, "r", [], none⟩ (7/10) false).isSome
      = true :=
  (C1_evaluate_iff ⟨false, 7/10, "r", [], none⟩ (7/10) false).2.1 rfl rfl

/-- **C2**: whatever the classifier transport and decode produce, the
resulting judgment's confidence lies in `[0, 1]`; a communication
failure, an undecodable reply, or a reply whose fields fail validation
(in particular an out-of-range confidence) all default to
`on_task = true, confidence = 0`, and such a fail-open judgment never
produces an (unforced) intervention decision. -/
theorem C2_fail_open (response : Option (Option RawAnalysis)) :
    (0 ≤ (analyze_task_adherence response).confidence
      ∧ (analyze_task_adherence response).confidence ≤ 1)
  ∧ (response = none →
      (analyze_task_adherence response).is_on_task = true
        ∧ (analyze_task_adherence response).confidence = 0)
  ∧ (response = some none →
      (analyze_task_adherence response).is_on_task = true
        ∧ (analyze_task_adherence response).confidence = 0)
  ∧ (∀ d, response = some (some d) → validateAnalysisResult d = none →
      (analyze_task_adherence response).is_on_task = true
        ∧ (analyze_task_adherence response).confidence = 0)
  ∧ (∀ (threshold : ℚ) (reasoning : String),
      evaluateJudgment (failOpenResult reasoning) threshold false = none)
    := by
  have hparse : ∀ d : RawAnalysis,
      0 ≤ (parse_analysis_response (some d)).confidence ∧
        (parse_analysis_response (some d)).confidence ≤ 1 := by
    intro d
    rcases hv : validateAnalysisResult d with _ | r
    · simp only [parse_analysis_response, hv]
      norm_num [failOpenResult]
    · simp only [parse_analysis_response, hv]
      unfold validateAnalysisResult at hv
      split_ifs at hv with h
      cases hv
      exact h
  refine ⟨?_, ?_, ?_, ?_, ?_⟩
  · rcases response with _ | (_ | d)
    · norm_num [analyze_task_adherence, failOpenResult]
    · norm_num [analyze_task_adherence, parse_analysis_response,
        failOpenResult]
    · exact hparse d
  · rintro rfl
    exact ⟨rfl, rfl⟩
  · rintro rfl
    exact ⟨rfl, rfl⟩
  · rintro d rfl hval
    simp only [analyze_task_adherence, parse_analysis_response, hval]
    exact ⟨rfl, rfl⟩
  · intro threshold reasoning
    rw [evaluateJudgment_eq_none]
    unfold shouldIntervene failOpenResult
    simp
/-- Witness for C2 on a communication failure. -/
theorem C2_fail_open_witness :
    (analyze_task_adherence none).is_on_task = true
      ∧ (analyze_task_adherence none).confidence = 0 :=
  (C2_fail_open none).2.1 rfl

/-- **C4**: severity is a total deterministic function of confidence —
`≥ 0.9` critical, `≥ 0.8` high, `≥ 0.7` medium, otherwise low, the
boundary values resolving to the higher band. -/
theorem C4_severity_bands (analysis : AnalysisResult) :
    (9/10 ≤ analysis.confidence → determine_severity analysis = "critical")
  ∧ (8/10 ≤ analysis.confidence → analysis.confidence < 9/10 →
      determine_severity analysis = "high")
  ∧ (7/10 ≤ analysis.confidence → analysis.confidence < 8/10 →
      determine_severity analysis = "medium")
  ∧ (analysis.confidence < 7/10 → determine_severity analysis = "low")
    := by
  unfold determine_severity
  refine ⟨?_, ?_, ?_, ?_⟩ <;> intros <;> split_ifs <;>
    first | rfl | (exfalso; linarith)

/-- Witness for C4 at the 0.9 boundary. -/
theorem C4_severity_bands_witness :
    determine_severity ⟨false, 9/10, "", [], none⟩ = "critical" :=
  (C4_severity_bands ⟨false, 9/10, "", [], none⟩).1 (by norm_num)

/-- **C6**: when the escalation obtained no human reply — no relay
configured, chat id missing, or the bounded wait timed out — the final
answer delivered to the agent is the automatic answer when it is
non-empty, and the generic clarification-request string otherwise. -/
theorem C6_relay_fallback (attempt : AnswerAttempt)
    (relay : Option (Option String)) :
    (attempt.should_ask_user = true →
      (relay = none ∨ relay = some none) →
      handle_question_answer attempt relay =
        (if attempt.answer = "" then "Please clarify your question."
         else attempt.answer))
  ∧ (∀ reply, ask_question_result none reply = none)
  ∧ (∀ chat_id, ask_question_result chat_id none = none) := by
  refine ⟨?_, fun reply => rfl, fun chat_id => ?_⟩
  · intro h1 h2
    rcases h2 with rfl | rfl <;>
      · by_cases ha : attempt.answer = "" <;>
          simp [handle_question_answer, h1, ha]
  · cases chat_id <;> rfl

/-- Witness for C6: timed-out wait, empty automatic answer. -/
theorem C6_relay_fallback_witness :
    handle_question_answer ⟨"", 0, "r", true⟩ (some none)
      = "Please clarify your question." := by
  have h := (C6_relay_fallback ⟨"", 0, "r", true⟩ (some none)).1 rfl
    (Or.inr rfl)
  simpa using h

/-- **C8 counterexample**: on a text whose first line is a rhetorical
exclusion, the code returns no question at all, while the claim's
reading (first line independently classified as a question) returns the
second line. -/
theorem C8_counterexample :
    extract_question
        "Let me check the config.\nShould I use PostgreSQL?".toList = none
  ∧ extractFirstQuestionLineSpec
        "Let me check the config.\nShould I use PostgreSQL?".toList
      = some "Should I use PostgreSQL?".toList := by
  constructor <;> rfl

/-- **C8 (amended)**: only when the whole text itself classifies as a
question does `extract` return the first line independently classified
as a question, falling back to the stripped whole text whenever it
contains `?`, else none; when the whole text does not classify as a
question, `extract` returns none. -/
theorem C8_extract_gated (text : List Char) :
    (is_question text = false → extract_question text = none)
  ∧ (is_question text = true →
      extract_question text = extractFirstQuestionLineSpec text) := by
  constructor
  · intro h
    simp [extract_question, h]
  · intro h
    simp only [extract_question, extractFirstQuestionLineSpec, h,
      Bool.not_true, Bool.false_eq_true, if_false]

/-- Witness for C8's amended statement. -/
theorem C8_extract_gated_witness :
    extract_question "Should I use PostgreSQL?".toList =
      extractFirstQuestionLineSpec "Should I use PostgreSQL?".toList :=
  (C8_extract_gated "Should I use PostgreSQL?".toList).2 rfl

/-- **C9 counterexample**: from the initial analyzer state, a first
event with empty display text sets the instruction to `""`; the second
event then overwrites it — the inference is not first-event-only and the
already-set instruction is not preserved. -/
theorem C9_counterexample :
    (((process_event 10 initAnalyzerState
        ⟨"", 0, "p", "s"⟩).1).user_instruction = some "")
  ∧ (((process_event 10
        (process_event 10 initAnalyzerState ⟨"", 0, "p", "s"⟩).1
        ⟨"implement the feature", 0, "p", "s"⟩).1).user_instruction
      = some "implement the feature") := by
  constructor <;> rfl

/-- **C9 (amended)**: processing an event adopts its display text as the
instruction whenever the current instruction is unset *or empty*
(Python truthiness); a non-empty instruction is never overwritten by
event processing — so the inference is one-time and first-event-only
exactly when the first event's display text is non-empty. -/
theorem C9_instruction_adoption (W : ℕ) (s : TaskAnalyzerState)
    (event : ClaudeHistoryEvent) :
    (truthyInstruction s.user_instruction = false →
      ((process_event W s event).1).user_instruction = some event.display)
  ∧ (∀ instr, s.user_instruction = some instr → instr ≠ "" →
      ((process_event W s event).1).user_instruction = s.user_instruction)
    := by
  constructor
  · intro h
    simp [process_event, h]
  · intro instr h hne
    simp [process_event, truthyInstruction, h, hne]

/-- Witness for C9's amended statement: a non-empty instruction
survives event processing. -/
theorem C9_instruction_adoption_witness :
    ((process_event 10
        (set_user_instruction initAnalyzerState "fix the bug")
        ⟨"other", 0, "p", "s"⟩).1).user_instruction
      = (set_user_instruction initAnalyzerState
          "fix the bug").user_instruction :=
  (C9_instruction_adoption 10
      (set_user_instruction initAnalyzerState "fix the bug")
      ⟨"other", 0, "p", "s"⟩).2 "fix the bug" rfl (by decide)

/-- **C10**: empty or whitespace-only text is never classified as a
question, and no question is extracted from it. -/
theorem C10_blank_not_question (text : List Char)
    (h : trimChars text = []) :
    is_question text = false ∧ extract_question text = none := by
  have h1 : is_question text = false := by
    simp [is_question, h]
  exact ⟨h1, by simp [extract_question, h1]⟩

/-- Witness for C10 on a whitespace-only text. -/
theorem C10_blank_not_question_witness :
    is_question " \n\t ".toList = false
      ∧ extract_question " \n\t ".toList = none :=
  C10_blank_not_question " \n\t ".toList (by decide)

/-- **C7**: the context window never holds more than `W` events, and
after `W + k` appends it holds exactly the last `W` appended events in
their original order; `process_event` maintains its event window by
exactly this bounded append. -/
theorem C7_window_bound (W : ℕ) (events : List ClaudeHistoryEvent) :
    (appendAll W [] events).length ≤ W
  ∧ (∀ k, events.length = W + k → appendAll W [] events = events.drop k)
  ∧ (∀ (s : TaskAnalyzerState) (e : ClaudeHistoryEvent),
      ((process_event W s e).1).recent_events
        = bufAppend W s.recent_events e) := by
  have h := appendAll_lastN W events [] (by simp)
  simp only [List.nil_append, List.length_nil, Nat.zero_add] at h
  refine ⟨?_, ?_, fun s e => rfl⟩
  · rw [h, List.length_drop]
    omega
  · intro k hk
    rw [h]
    congr 1
    omega

/-- Witness for C7: window size 2, three appends keep the last two. -/
theorem C7_window_bound_witness :
    appendAll 2 []
        ([⟨"a", 0, "p", "s"⟩, ⟨"b", 0, "p", "s"⟩, ⟨"c", 0, "p", "s"⟩] :
          List ClaudeHistoryEvent)
      = List.drop 1
          ([⟨"a", 0, "p", "s"⟩, ⟨"b", 0, "p", "s"⟩, ⟨"c", 0, "p", "s"⟩] :
            List ClaudeHistoryEvent) :=
  (C7_window_bound 2
      ([⟨"a", 0, "p", "s"⟩, ⟨"b", 0, "p", "s"⟩, ⟨"c", 0, "p", "s"⟩] :
        List ClaudeHistoryEvent)).2.1 1 rfl

theorem runReads_join {E : Type} (parse : List Char → Option E)
    (appends : List (List Char)) :
    ∀ file : List Char,
      runReads parse file file.length appends
        = (appends.map (fun a =>
            (splitOnChar '\n' a).filterMap (processLine parse))).flatten := by
  induction appends with
  | nil => intro file; rfl
  | cons a as ih =>
    intro file
    show (read_new_entries parse (file ++ a) file.length).1
        ++ runReads parse (file ++ a)
            (read_new_entries parse (file ++ a) file.length).2 as = _
    have hpos : (read_new_entries parse (file ++ a) file.length).2
        = (file ++ a).length := rfl
    have hemit : (read_new_entries parse (file ++ a) file.length).1
        = (splitOnChar '\n' a).filterMap (processLine parse) := by
      show ((splitOnChar '\n' ((file ++ a).drop file.length)).filterMap
          (processLine parse)) = _
      rw [List.drop_left]
    rw [hpos, hemit, ih (file ++ a)]
    simp

/-- **C5**: each read of the history file seeks to the persisted offset
and advances it to the new end-of-file regardless of parse failures; a
run of reads over a sequence of appended chunks — starting from the
initial offset, which is the end-of-file at attach time — emits exactly
the successfully parsed lines of each appended chunk, each chunk being
processed once (so no successfully parsed line occurrence is ever
emitted twice, and nothing written before the initial offset is ever
emitted); a malformed line is dropped while the surrounding lines of the
same read are still processed. -/
theorem C5_read_discipline {E : Type} (parse : List Char → Option E)
    (f0 : List Char) (appends : List (List Char)) :
    (runReads parse f0 (initialize_position f0) appends
      = (appends.map (fun a =>
          (splitOnChar '\n' a).filterMap (processLine parse))).flatten)
  ∧ (∀ (file : List Char) (pos : ℕ),
      (read_new_entries parse file pos).2 = file.length)
  ∧ (∀ (l₁ l₂ : List (List Char)) (bad : List Char),
      processLine parse bad = none →
      (l₁ ++ bad :: l₂).filterMap (processLine parse)
        = l₁.filterMap (processLine parse)
          ++ l₂.filterMap (processLine parse)) := by
  refine ⟨runReads_join parse appends f0, fun file pos => rfl, ?_⟩
  intro l₁ l₂ bad hbad
  simp [List.filterMap_append, List.filterMap_cons, hbad]

/-- Witness for C5's malformed-line conjunct: an unparsable middle line
is dropped, the lines around it still parse. -/
theorem C5_read_discipline_witness :
    ([['a']] ++ ['b'] :: [['a']]).filterMap
        (processLine (fun l => if l = ['a'] then some (0 : ℕ) else none))
      = [['a']].filterMap
          (processLine (fun l => if l = ['a'] then some (0 : ℕ) else none))
        ++ [['a']].filterMap
            (processLine (fun l => if l = ['a'] then some (0 : ℕ) else none))
    :=
  (C5_read_discipline (fun l => if l = ['a'] then some (0 : ℕ) else none)
      [] []).2.2 [['a']] [['a']] ['b'] (by decide)

theorem process_event_not_suspicious (W : ℕ) (s : TaskAnalyzerState)
    (e : ClaudeHistoryEvent) (instr : String)
    (h : s.user_instruction = some instr) (hne : instr ≠ "")
    (hsusp : is_suspicious_activity e.display = false) :
    ((process_event W s e).2).map Trigger.force
      = if (s.event_count + 1) % check_frequency = 0 then some false
        else none := by
  have ht : truthyInstruction s.user_instruction = true := by
    rw [h]
    simp [truthyInstruction, hne]
  simp only [process_event, ht, if_true, hsusp, Bool.false_eq_true,
    if_false]
  split
  · simp [trigger_analysis, ht, h, hne]
  · rfl

theorem process_event_instruction_stable (W : ℕ) (s : TaskAnalyzerState)
    (e : ClaudeHistoryEvent)
    (ht : truthyInstruction s.user_instruction = true) :
    ((process_event W s e).1).user_instruction = s.user_instruction := by
  simp [process_event, ht]

theorem process_event_count (W : ℕ) (s : TaskAnalyzerState)
    (e : ClaudeHistoryEvent) :
    ((process_event W s e).1).event_count = s.event_count + 1 := rfl

theorem runEvents_cadence_map (W : ℕ) (instr : String) (hne : instr ≠ "") :
    ∀ (es : List ClaudeHistoryEvent) (s : TaskAnalyzerState),
      s.user_instruction = some instr →
      (∀ e ∈ es, is_suspicious_activity e.display = false) →
      (runEvents W s es).map (Option.map Trigger.force)
        = (List.range es.length).map
            (fun k => if (s.event_count + k + 1) % check_frequency = 0
                      then some false else none) := by
  intro es
  induction es with
  | nil => intro s _ _; rfl
  | cons e es ih =>
    intro s hs hsusp
    have ht : truthyInstruction s.user_instruction = true := by
      rw [hs]
      simp [truthyInstruction, hne]
    have hhead := process_event_not_suspicious W s e instr hs hne
      (hsusp e (List.mem_cons_self e es))
    have hs' : ((process_event W s e).1).user_instruction = some instr := by
      rw [process_event_instruction_stable W s e ht, hs]
    have htail := ih (process_event W s e).1 hs'
      (fun x hx => hsusp x (List.mem_cons_of_mem e hx))
    have hrun : runEvents W s (e :: es)
        = (process_event W s e).2 :: runEvents W (process_event W s e).1 es
      := rfl
    rw [hrun, List.map_cons, hhead, htail, process_event_count,
      List.length_cons, List.range_succ_eq_map, List.map_cons,
      List.map_map, Nat.add_zero]
    congr 1
    apply List.map_congr_left
    intro k _
    simp only [Function.comp_def, Nat.succ_eq_add_one]
    have h2 : s.event_count + 1 + k + 1 = s.event_count + (k + 1) + 1 := by
      omega
    rw [h2]

/-- **C3**: with a (non-empty) task instruction set and cadence 3, a
run over events none of which contain a suspicious phrase fires the
classifier exactly at the 1-based positions divisible by 3, never
forced; an event containing a suspicious phrase triggers immediately
with the forced flag, at any position; and no trigger fires when no
task instruction is known (unset-or-empty instruction and empty display
text, display text being what an unset instruction would adopt). -/
theorem C3_trigger_policy (W : ℕ) :
    (∀ instr : String, instr ≠ "" →
      ∀ es : List ClaudeHistoryEvent,
        (∀ e ∈ es, is_suspicious_activity e.display = false) →
        (runEvents W (set_user_instruction initAnalyzerState instr)
            es).map (Option.map Trigger.force)
          = (List.range es.length).map
              (fun k => if (k + 1) % 3 = 0 then some false else none))
  ∧ (∀ (s : TaskAnalyzerState) (e : ClaudeHistoryEvent),
      is_suspicious_activity e.display = true →
      (truthyInstruction s.user_instruction = true ∨ e.display ≠ "") →
      ∃ t : Trigger, (process_event W s e).2 = some t ∧ t.force = true)
  ∧ (∀ (s : TaskAnalyzerState) (e : ClaudeHistoryEvent),
      truthyInstruction s.user_instruction = false → e.display = "" →
      (process_event W s e).2 = none) := by
  refine ⟨?_, ?_, ?_⟩
  · intro instr hne es hsusp
    have h := runEvents_cadence_map W instr hne es
      (set_user_instruction initAnalyzerState instr) rfl hsusp
    simpa [set_user_instruction, initAnalyzerState, check_frequency]
      using h
  · intro s e hsusp hknown
    have hinstr : ∃ instr : String,
        (if truthyInstruction s.user_instruction then s.user_instruction
         else some e.display) = some instr ∧ instr ≠ "" := by
      rcases hknown with ht | hd
      · rw [ht, if_pos rfl]
        cases hs : s.user_instruction with
        | none => rw [hs] at ht; exact absurd ht (by simp [truthyInstruction])
        | some i =>
          refine ⟨i, rfl, ?_⟩
          rw [hs] at ht
          simpa [truthyInstruction] using ht
      · cases ht : truthyInstruction s.user_instruction with
        | true =>
          rw [if_pos rfl]
          cases hs : s.user_instruction with
          | none => rw [hs] at ht; exact absurd ht (by simp [truthyInstruction])
          | some i =>
            refine ⟨i, rfl, ?_⟩
            rw [hs] at ht
            simpa [truthyInstruction] using ht
        | false => exact ⟨e.display, by simp, hd⟩
    rcases hinstr with ⟨instr, hinstr, hne⟩
    refine ⟨⟨⟨instr,
        bufAppend W s.recent_events e, s.current_todos,
        s.completed_todos⟩, e.display, true⟩, ?_, rfl⟩
    simp only [process_event, hsusp, if_true]
    simp only [trigger_analysis, hinstr]
    simp [hne]
  · intro s e ht hd
    simp [process_event, trigger_analysis, ht, hd]

/-- Witness for C3: three unsuspicious events after a set instruction —
the only trigger is at position 3, unforced. -/
theorem C3_trigger_policy_witness :
    (runEvents 10 (set_user_instruction initAnalyzerState "task")
        ([⟨"alpha", 0, "p", "s"⟩, ⟨"beta", 1, "p", "s"⟩,
          ⟨"gamma", 2, "p", "s"⟩] : List ClaudeHistoryEvent)).map
        (Option.map Trigger.force)
      = (List.range 3).map
          (fun k => if (k + 1) % 3 = 0 then some false else none) :=
  (C3_trigger_policy 10).1 "task" (by decide)
    ([⟨"alpha", 0, "p", "s"⟩, ⟨"beta", 1, "p", "s"⟩,
      ⟨"gamma", 2, "p", "s"⟩] : List ClaudeHistoryEvent)
    (by decide)

end Hawtcher
